import Mathlib

/-!
Shallow embedding of the transaction-processing core of the banking-app
repository (src/database/database.go, src/models/models.go), together with
theorems settling the frozen claims about it.

The core under verification is the `CreateTransaction` handler
(src/database/database.go lines 550-639): it validates the request, then runs
a GORM `db.Transaction` closure that fetches the account, checks its status,
applies the type-specific balance effect, saves the account and creates the
transaction record, rolling everything back if the closure returns an error.

Modelling decisions:
* The relational store is a `DB` value: a list of accounts and a list of
  transaction records.  GORM bookkeeping columns (`ID`, `CreatedAt`,
  `UpdatedAt`, `DeletedAt`) and preload-only relationship fields carry no
  domain state in this core and are omitted.
* Monetary values (`float64` in Go) are embedded as exact rationals; the
  representation question (binary float64 versus exact decimals) is treated
  separately through `isDyadic`.
* `generateTransactionID` reads the wall clock, so the generated identifier
  is passed to the model as an explicit argument.
* The two stores writes (`tx.Save`, `tx.Create`) may fail in Go; the model
  takes two `Option GormError` oracles saying whether (and with which error)
  each write fails.
* GORM's `db.Transaction` commits the closure's final state on `nil` and
  rolls back to the initial state on error; `dbTransaction` models exactly
  that contract of the external store.
-/

namespace Banking

/-- Account models `models.Account` (src/models/models.go lines 34-55):
the scalar columns `ID`, `AccountNumber`, `CustomerID`, `AccountType`,
`Balance`, `Currency`, `Status`. -/
structure Account where
  id : Nat
  accountNumber : String
  customerID : Nat
  accountType : String
  balance : ℚ
  currency : String
  status : String
deriving Repr, DecidableEq

/-- Transaction models `models.Transaction` (src/models/models.go lines
59-83): the scalar columns `TransactionID`, `AccountID`, `TransactionType`,
`Amount`, `Description`, `Reference`, `BalanceBefore`, `BalanceAfter`.
The same structure is used for the JSON-bound request body, exactly as the
Go handler binds the request into a `models.Transaction` value. -/
structure Transaction where
  transactionID : String
  accountID : Nat
  transactionType : String
  amount : ℚ
  description : String
  reference : String
  balanceBefore : ℚ
  balanceAfter : ℚ
deriving Repr, DecidableEq

/-- The relational state the core reads and writes: the `accounts` table and
the `transactions` table. -/
structure DB where
  accounts : List Account
  transactions : List Transaction
deriving Repr, DecidableEq

/-- The `error` values the handler distinguishes: `gorm.ErrRecordNotFound`,
`gorm.ErrInvalidData`, and any other (infrastructure/storage) error. -/
inductive GormError where
  | recordNotFound
  | invalidData
  | storage (msg : String)
deriving Repr, DecidableEq

/-- The caller-visible outcome of the handler: `201 Created` with the
persisted record, `400 Bad Request`, `404 Not Found`, or `500`. -/
inductive Response where
  | created (txn : Transaction)
  | badRequest (msg : String)
  | notFound (msg : String)
  | internalError (msg : String)
deriving Repr, DecidableEq

/-- Helper from src/database/database.go lines 787-794: linear scan of a
string slice. -/
def contains (slice : List String) (item : String) : Bool :=
  match slice with
  | [] => false
  | s :: rest => if s = item then true else contains rest item

/-- The valid transaction types (src/database/database.go line 560). -/
def validTypes : List String :=
  ["deposit", "withdrawal", "transfer", "payment"]

/-- Models `tx.First(&account, transaction.AccountID)`: primary-key lookup in
the accounts table. -/
def findAccount (db : DB) (accountID : Nat) : Option Account :=
  db.accounts.find? (fun a => a.id == accountID)

/-- Models `tx.Save(&account)`: replace the row whose primary key matches. -/
def saveAccount (accounts : List Account) (account : Account) : List Account :=
  accounts.map (fun a => if a.id == account.id then account else a)

/-- The `switch transaction.TransactionType` statement of the closure
(src/database/database.go lines 588-602): deposit adds the amount; the three
debit types subtract it after the insufficient-funds check; a type outside
the four cases leaves the balance untouched (no `default` case in Go), which
is unreachable behind the handler's validation. -/
def balanceStep (balance : ℚ) (transactionType : String) (amount : ℚ) :
    Except GormError ℚ :=
  match transactionType with
  | "deposit" => .ok (balance + amount)
  | "withdrawal" =>
    if balance < amount then .error .invalidData
    else .ok (balance - amount)
  | "transfer" | "payment" =>
    if balance < amount then .error .invalidData
    else .ok (balance - amount)
  | _ => .ok balance

/-- The GORM transaction closure (src/database/database.go lines 573-619):
fetch the account, reject non-active status, snapshot `BalanceBefore`, apply
the type-specific balance effect via `balanceStep`, set `BalanceAfter` and
the generated `TransactionID`, then save the account and create the record.
`saveErr` and `createErr` say whether the corresponding store write fails. -/
def txBody (db : DB) (transaction : Transaction) (genID : String)
    (saveErr createErr : Option GormError) :
    Except GormError (DB × Transaction) :=
  match findAccount db transaction.accountID with
  | none => .error .recordNotFound
  | some account =>
    if account.status ≠ "active" then .error .invalidData
    else
      let before := account.balance
      match balanceStep account.balance transaction.transactionType transaction.amount with
      | .error e => .error e
      | .ok newBalance =>
        let account2 := { account with balance := newBalance }
        let record := { transaction with
          transactionID := genID
          balanceBefore := before
          balanceAfter := newBalance }
        match saveErr with
        | some e => .error e
        | none =>
          let db2 := { db with accounts := saveAccount db.accounts account2 }
          match createErr with
          | some e => .error e
          | none =>
            .ok ({ db2 with transactions := db2.transactions ++ [record] }, record)

/-- Models GORM `db.Transaction`: the closure's outcome (already evaluated,
since the embedding is pure) is committed as the new store state on success
and rolled back to the initial state on any error. -/
def dbTransaction (outcome : Except GormError (DB × Transaction)) (db : DB) :
    Except GormError Transaction × DB :=
  match outcome with
  | .ok (db2, record) => (.ok record, db2)
  | .error e => (.error e, db)

/-- The full handler (src/database/database.go lines 550-639) after JSON
binding: validate the type against `validTypes`, validate that the amount is
positive, run the atomic unit of work, and translate the outcome to the
caller-visible response exactly as the Go error-comparison chain does. -/
def CreateTransaction (db : DB) (transaction : Transaction) (genID : String)
    (saveErr createErr : Option GormError) : Response × DB :=
  if contains validTypes transaction.transactionType = false then
    (.badRequest "Invalid transaction type", db)
  else if transaction.amount ≤ 0 then
    (.badRequest "Transaction amount must be positive", db)
  else
    match dbTransaction
        (txBody db transaction genID saveErr createErr) db with
    | (.ok record, db2) => (.created record, db2)
    | (.error .recordNotFound, db2) => (.notFound "Account not found", db2)
    | (.error .invalidData, db2) =>
      (.badRequest "Insufficient balance or invalid account status", db2)
    | (.error (.storage _), db2) =>
      (.internalError "Failed to process transaction", db2)

/-- Modelled from the spec (effect table in section 4.1): deposit adds the
amount, the three debit types subtract it.  Used as the comparison target of
the ledger invariant. -/
def applyEffect (balance : ℚ) (transactionType : String) (amount : ℚ) : ℚ :=
  if transactionType = "deposit" then balance + amount else balance - amount

/-- The records of the given account, in persistence order. -/
def recordsFor (db : DB) (accountID : Nat) : List Transaction :=
  db.transactions.filter (fun t => t.accountID == accountID)

/-- The ledger invariant of the spec's data model: every persisted record
satisfies the effect equation, and every account's stored balance equals the
`balanceAfter` of its most recent record (when it has one). -/
def LedgerInvariant (db : DB) : Prop :=
  (∀ t ∈ db.transactions,
    t.balanceAfter = applyEffect t.balanceBefore t.transactionType t.amount) ∧
  (∀ a ∈ db.accounts, ∀ t,
    (recordsFor db a.id).getLast? = some t → a.balance = t.balanceAfter)

/-- A rational is dyadic when it is an integer divided by a power of two.
Every finite value of Go's `float64` (IEEE-754 binary64), the type of
`Account.Balance` and `Transaction.Amount` in src/models/models.go lines 46
and 71, is of this form. -/
def isDyadic (q : ℚ) : Prop :=
  ∃ (m : ℤ) (e : ℕ), q = (m : ℚ) / 2 ^ e

/-- The record the closure persists: the request with `TransactionID`,
`BalanceBefore` and `BalanceAfter` overwritten by the processor
(src/database/database.go lines 586, 605, 606).  Convenient shorthand for
theorem statements; `txBody` constructs exactly this value. -/
def mkRecord (t : Transaction) (genID : String) (before after : ℚ) :
    Transaction :=
  { t with transactionID := genID, balanceBefore := before,
           balanceAfter := after }

/-! ### Concrete fixtures (used by witnesses and counterexamples) -/

/-- An active checking account with balance 100, primary key 1. -/
def testAccount : Account :=
  { id := 1, accountNumber := "ACC1", customerID := 1,
    accountType := "checking", balance := 100, currency := "USD",
    status := "active" }

/-- A non-active account with balance 0, primary key 2. -/
def inactiveAccount : Account :=
  { id := 2, accountNumber := "ACC2", customerID := 2,
    accountType := "savings", balance := 0, currency := "USD",
    status := "inactive" }

/-- An active account with balance 0, primary key 3. -/
def zeroAccount : Account :=
  { id := 3, accountNumber := "ACC3", customerID := 3,
    accountType := "checking", balance := 0, currency := "USD",
    status := "active" }

/-- A store holding the three fixture accounts and no records yet. -/
def testDB : DB :=
  { accounts := [testAccount, inactiveAccount, zeroAccount],
    transactions := [] }

/-- A deposit request of 50 against account 1. -/
def testReq : Transaction :=
  { transactionID := "", accountID := 1, transactionType := "deposit",
    amount := 50, description := "", reference := "",
    balanceBefore := 0, balanceAfter := 0 }

/-- The handler's translation of a closure error to the caller-visible
response (the error-comparison chain at src/database/database.go lines
621-632). -/
def errResponse : GormError → Response
  | .recordNotFound => .notFound "Account not found"
  | .invalidData => .badRequest "Insufficient balance or invalid account status"
  | .storage _ => .internalError "Failed to process transaction"

/-- A deposit request of the exact decimal 0.10 against account 3. -/
def centReq : Transaction :=
  { transactionID := "", accountID := 3, transactionType := "deposit",
    amount := 1 / 10, description := "", reference := "",
    balanceBefore := 0, balanceAfter := 0 }

/-- A withdrawal request of the given amount against account 1. -/
def wdrawReq (amt : ℚ) : Transaction :=
  { testReq with transactionType := "withdrawal", amount := amt }

/-- A deposit request of 10 against the non-active account 2. -/
def inactReq : Transaction :=
  { testReq with accountID := 2, amount := 10 }

/-- A request with an invalid (upper-case) type and a negative amount. -/
def badTypeReq : Transaction :=
  { testReq with transactionType := "DEPOSIT", amount := -5 }

/-- A deposit request with amount zero. -/
def zeroAmtReq : Transaction :=
  { testReq with amount := 0 }

/-! ### Helper lemmas -/

attribute [local semireducible] Rat.add Rat.sub Rat.mul Rat.inv

lemma contains_iff_mem (l : List String) (s : String) :
    contains l s = true ↔ s ∈ l := by
  induction l with
  | nil => simp [contains]
  | cons a rest ih =>
    simp only [contains]
    by_cases h : a = s
    · simp [h]
    · simp only [if_neg h, ih, List.mem_cons]
      have : ¬ s = a := fun hs => h hs.symm
      simp [this]

lemma contains_validTypes (s : String) :
    contains validTypes s = true ↔
      s = "deposit" ∨ s = "withdrawal" ∨ s = "transfer" ∨ s = "payment" := by
  rw [contains_iff_mem]
  simp [validTypes]

lemma balanceStep_ok {b : ℚ} {ty : String} {amt nb : ℚ}
    (h : balanceStep b ty amt = .ok nb) :
    (ty = "deposit" ∧ nb = b + amt) ∨
    ((ty = "withdrawal" ∨ ty = "transfer" ∨ ty = "payment") ∧
      ¬ b < amt ∧ nb = b - amt) ∨
    (contains validTypes ty = false ∧ nb = b) := by
  unfold balanceStep at h
  split at h
  · left
    exact ⟨rfl, (Except.ok.injEq _ _).mp h.symm⟩
  · right; left
    split at h
    · cases h
    · exact ⟨Or.inl rfl, by assumption, (Except.ok.injEq _ _).mp h.symm⟩
  · right; left
    split at h
    · cases h
    · exact ⟨Or.inr (Or.inl rfl), by assumption, (Except.ok.injEq _ _).mp h.symm⟩
  · right; left
    split at h
    · cases h
    · exact ⟨Or.inr (Or.inr rfl), by assumption, (Except.ok.injEq _ _).mp h.symm⟩
  · right; right
    rename_i h1 h2 h3 h4
    refine ⟨?_, (Except.ok.injEq _ _).mp h.symm⟩
    have e1 : ty ≠ "deposit" := h1
    have e2 : ty ≠ "withdrawal" := h2
    have e3 : ty ≠ "transfer" := h3
    have e4 : ty ≠ "payment" := h4
    cases hc : contains validTypes ty
    · rfl
    · rcases (contains_validTypes ty).mp hc with h | h | h | h <;> simp_all

lemma balanceStep_ok_valid {b : ℚ} {ty : String} {amt nb : ℚ}
    (hty : contains validTypes ty = true)
    (h : balanceStep b ty amt = .ok nb) :
    nb = applyEffect b ty amt := by
  rcases balanceStep_ok h with ⟨h1, h2⟩ | ⟨h1, _, h3⟩ | ⟨h1, _⟩
  · simp [applyEffect, h1, h2]
  · have hne : ty ≠ "deposit" := by
      rcases h1 with h | h | h <;> rw [h] <;> decide
    simp [applyEffect, hne, h3]
  · rw [hty] at h1
    cases h1

lemma txBody_ok {db : DB} {t : Transaction} {g : String}
    {se ce : Option GormError} {db2 : DB} {txn : Transaction}
    (h : txBody db t g se ce = .ok (db2, txn)) :
    ∃ a nb, findAccount db t.accountID = some a ∧ a.status = "active" ∧
      se = none ∧ ce = none ∧
      balanceStep a.balance t.transactionType t.amount = .ok nb ∧
      txn = { t with
              transactionID := g
              balanceBefore := a.balance
              balanceAfter := nb } ∧
      db2 = { accounts := saveAccount db.accounts { a with balance := nb },
              transactions := db.transactions ++ [txn] } := by
  unfold txBody at h
  split at h
  · simp at h
  · rename_i a hfind
    split at h
    · simp at h
    · rename_i hstatus
      have hactive : a.status = "active" := not_not.mp hstatus
      split at h
      · simp at h
      · rename_i nb hstep
        cases se with
        | some e => simp at h
        | none =>
          cases ce with
          | some e => simp at h
          | none =>
            simp only [Except.ok.injEq, Prod.mk.injEq] at h
            exact ⟨a, nb, hfind, hactive, rfl, rfl, hstep,
              h.2.symm, by rw [← h.1, ← h.2]⟩

/-- Central case analysis of the handler: every invocation either leaves the
store untouched and reports a non-created response, or commits exactly the
updated account row and one appended record whose balances follow the effect
table. -/
lemma createTransaction_spec (db : DB) (t : Transaction) (g : String)
    (se ce : Option GormError) :
    ((CreateTransaction db t g se ce).2 = db ∧
      ∀ r, (CreateTransaction db t g se ce).1 ≠ Response.created r) ∨
    (∃ a txn,
      contains validTypes t.transactionType = true ∧
      0 < t.amount ∧
      findAccount db t.accountID = some a ∧
      a.status = "active" ∧
      txn = { t with
              transactionID := g
              balanceBefore := a.balance
              balanceAfter := applyEffect a.balance t.transactionType t.amount } ∧
      CreateTransaction db t g se ce =
        (Response.created txn,
         { accounts := saveAccount db.accounts
             { a with balance := applyEffect a.balance t.transactionType t.amount },
           transactions := db.transactions ++ [txn] })) := by
  unfold CreateTransaction
  by_cases h1 : contains validTypes t.transactionType = false
  · rw [if_pos h1]
    exact Or.inl ⟨rfl, by simp⟩
  · rw [if_neg h1]
    have h1t : contains validTypes t.transactionType = true := by
      cases hb : contains validTypes t.transactionType
      · exact absurd hb h1
      · rfl
    by_cases h2 : t.amount ≤ 0
    · rw [if_pos h2]
      exact Or.inl ⟨rfl, by simp⟩
    · rw [if_neg h2]
      have hpos : 0 < t.amount := not_le.mp h2
      cases hbody : txBody db t g se ce with
      | error e =>
        left
        cases e <;> simp [dbTransaction]
      | ok p =>
        obtain ⟨db2, txn⟩ := p
        obtain ⟨a, nb, hfind, hactive, -, -, hstep, htxn, hdb2⟩ := txBody_ok hbody
        have hnb : nb = applyEffect a.balance t.transactionType t.amount :=
          balanceStep_ok_valid h1t hstep
        refine Or.inr ⟨a, txn, h1t, hpos, hfind, hactive, ?_, ?_⟩
        · rw [htxn, hnb]
        · simp only [dbTransaction]
          rw [hdb2, hnb]

lemma balanceStep_deposit (b amt : ℚ) :
    balanceStep b "deposit" amt = .ok (b + amt) := rfl

lemma balanceStep_debit {b amt : ℚ} {ty : String}
    (hty : ty = "withdrawal" ∨ ty = "transfer" ∨ ty = "payment")
    (hge : amt ≤ b) :
    balanceStep b ty amt = .ok (b - amt) := by
  rcases hty with h | h | h <;> rw [h] <;> simp [balanceStep, not_lt.mpr hge]

lemma balanceStep_insufficient {b amt : ℚ} {ty : String}
    (hty : ty = "withdrawal" ∨ ty = "transfer" ∨ ty = "payment")
    (hlt : b < amt) :
    balanceStep b ty amt = .error .invalidData := by
  rcases hty with h | h | h <;> rw [h] <;> simp [balanceStep, hlt]

lemma txBody_inactive {db : DB} {t : Transaction} {g : String}
    {se ce : Option GormError} {a : Account}
    (hfind : findAccount db t.accountID = some a)
    (hinactive : a.status ≠ "active") :
    txBody db t g se ce = .error .invalidData := by
  simp only [txBody, hfind]
  rw [if_pos hinactive]

lemma txBody_step_error {db : DB} {t : Transaction} {g : String}
    {se ce : Option GormError} {a : Account} {e : GormError}
    (hfind : findAccount db t.accountID = some a)
    (hactive : a.status = "active")
    (hstep : balanceStep a.balance t.transactionType t.amount = .error e) :
    txBody db t g se ce = .error e := by
  simp only [txBody, hfind]
  rw [if_neg (not_not_intro hactive), hstep]

lemma createTransaction_ok {db : DB} {t : Transaction} {g : String}
    {a : Account} {nb : ℚ}
    (hfind : findAccount db t.accountID = some a)
    (hactive : a.status = "active")
    (htype : contains validTypes t.transactionType = true)
    (hpos : 0 < t.amount)
    (hstep : balanceStep a.balance t.transactionType t.amount = .ok nb) :
    CreateTransaction db t g none none =
      (Response.created (mkRecord t g a.balance nb),
       { accounts := saveAccount db.accounts { a with balance := nb },
         transactions := db.transactions ++ [mkRecord t g a.balance nb] }) := by
  have hbody : txBody db t g none none =
      .ok ({ accounts := saveAccount db.accounts { a with balance := nb },
             transactions := db.transactions ++ [mkRecord t g a.balance nb] },
           mkRecord t g a.balance nb) := by
    simp only [txBody, hfind]
    rw [if_neg (not_not_intro hactive), hstep]
    rfl
  unfold CreateTransaction
  rw [if_neg (by simp [htype]), if_neg (not_le.mpr hpos), hbody]
  rfl

lemma createTransaction_err {db : DB} {t : Transaction} {g : String}
    {se ce : Option GormError} {e : GormError}
    (htype : contains validTypes t.transactionType = true)
    (hpos : 0 < t.amount)
    (hbody : txBody db t g se ce = .error e) :
    CreateTransaction db t g se ce = (errResponse e, db) := by
  unfold CreateTransaction
  rw [if_neg (by simp [htype]), if_neg (not_le.mpr hpos), hbody]
  cases e <;> rfl

/-! ### Claim theorems -/

/-- C1: for an existing account with status `active` and a request whose type
is one of the four valid types, whose amount is strictly positive and which
satisfies the funds precondition (no precondition for deposit, otherwise
`amount ≤ balance`), the handler succeeds; the persisted record's
`balanceBefore` equals the account balance as fetched, its `balanceAfter`
equals `balanceBefore + amount` for deposit and `balanceBefore - amount` for
the debit types (via `applyEffect`), and exactly one record is appended. -/
theorem C1_success_effect (db : DB) (t : Transaction) (g : String)
    (a : Account)
    (hfind : findAccount db t.accountID = some a)
    (hactive : a.status = "active")
    (htype : contains validTypes t.transactionType = true)
    (hpos : 0 < t.amount)
    (hfunds : t.transactionType = "deposit" ∨ t.amount ≤ a.balance) :
    CreateTransaction db t g none none =
      (Response.created
        (mkRecord t g a.balance
          (applyEffect a.balance t.transactionType t.amount)),
       { accounts := saveAccount db.accounts
           { a with
             balance := applyEffect a.balance t.transactionType t.amount },
         transactions := db.transactions ++
           [mkRecord t g a.balance
             (applyEffect a.balance t.transactionType t.amount)] }) := by
  have hdeb : (t.transactionType = "withdrawal" ∨
      t.transactionType = "transfer" ∨ t.transactionType = "payment") →
      balanceStep a.balance t.transactionType t.amount =
        .ok (applyEffect a.balance t.transactionType t.amount) := by
    intro hty
    have hne : t.transactionType ≠ "deposit" := by
      rcases hty with h | h | h <;> rw [h] <;> decide
    have hf : t.amount ≤ a.balance := by
      rcases hfunds with hd | hb
      · exact absurd hd hne
      · exact hb
    rw [balanceStep_debit hty hf]
    simp [applyEffect, hne]
  have hstep : balanceStep a.balance t.transactionType t.amount =
      .ok (applyEffect a.balance t.transactionType t.amount) := by
    rcases (contains_validTypes _).mp htype with h | h | h | h
    · rw [h, balanceStep_deposit]
      simp [applyEffect]
    · exact hdeb (Or.inl h)
    · exact hdeb (Or.inr (Or.inl h))
    · exact hdeb (Or.inr (Or.inr h))
  exact createTransaction_ok hfind hactive htype hpos hstep

/-- Witness for C1 at the section-8 scenario: balance 100, deposit 50. -/
theorem C1_witness :
    findAccount testDB testReq.accountID = some testAccount ∧
    testAccount.status = "active" ∧
    contains validTypes testReq.transactionType = true ∧
    0 < testReq.amount ∧
    (testReq.transactionType = "deposit" ∨
      testReq.amount ≤ testAccount.balance) ∧
    CreateTransaction testDB testReq "TXN1" none none =
      (Response.created (mkRecord testReq "TXN1" 100 150),
       { accounts := [{ testAccount with balance := 150 },
                      inactiveAccount, zeroAccount],
         transactions := [mkRecord testReq "TXN1" 100 150] }) :=
  ⟨by decide, by decide, by decide, by decide, Or.inl (by decide),
   (C1_success_effect testDB testReq "TXN1" testAccount (by decide) (by decide)
      (by decide) (by decide) (Or.inl (by decide))).trans (by decide)⟩

/-- C2: every invocation is all-or-nothing: either the store is left exactly
as before the call and no created-response is returned, or the response is
`created` and the committed state holds both the updated account row and the
single appended record. -/
theorem C2_atomicity (db : DB) (t : Transaction) (g : String)
    (se ce : Option GormError) :
    ((CreateTransaction db t g se ce).2 = db ∧
      ∀ r, (CreateTransaction db t g se ce).1 ≠ Response.created r) ∨
    (∃ a txn, findAccount db t.accountID = some a ∧
      CreateTransaction db t g se ce =
        (Response.created txn,
         { accounts := saveAccount db.accounts
             { a with balance := txn.balanceAfter },
           transactions := db.transactions ++ [txn] })) := by
  rcases createTransaction_spec db t g se ce with
    h | ⟨a, txn, -, -, hfind, -, htxn, heq⟩
  · exact Or.inl h
  · refine Or.inr ⟨a, txn, hfind, ?_⟩
    subst htxn
    rw [heq]

/-- Witness for C2: instantiation at the concrete deposit scenario. -/
theorem C2_witness :
    ((CreateTransaction testDB testReq "TXN1" none none).2 = testDB ∧
      ∀ r, (CreateTransaction testDB testReq "TXN1" none none).1 ≠
        Response.created r) ∨
    (∃ a txn, findAccount testDB testReq.accountID = some a ∧
      CreateTransaction testDB testReq "TXN1" none none =
        (Response.created txn,
         { accounts := saveAccount testDB.accounts
             { a with balance := txn.balanceAfter },
           transactions := testDB.transactions ++ [txn] })) :=
  C2_atomicity testDB testReq "TXN1" none none

/-- C6: an invalid type is rejected with the invalid-type error before the
store is touched (even when the amount is also non-positive), and a valid
type with non-positive amount is rejected with the invalid-amount error; in
both cases the state is returned unchanged and the response does not depend
on the store contents. -/
theorem C6_validation (db : DB) (t : Transaction) (g : String)
    (se ce : Option GormError) :
    (contains validTypes t.transactionType = false →
      CreateTransaction db t g se ce =
        (Response.badRequest "Invalid transaction type", db)) ∧
    (contains validTypes t.transactionType = true → t.amount ≤ 0 →
      CreateTransaction db t g se ce =
        (Response.badRequest "Transaction amount must be positive", db)) := by
  constructor
  · intro h
    unfold CreateTransaction
    rw [if_pos h]
  · intro h1 h2
    unfold CreateTransaction
    rw [if_neg (by simp [h1]), if_pos h2]

/-- Witness for C6: the case-sensitive type "DEPOSIT" with negative amount is
rejected as an invalid type, and a zero-amount deposit as an invalid
amount. -/
theorem C6_witness :
    CreateTransaction testDB badTypeReq "TXN1" none none =
      (Response.badRequest "Invalid transaction type", testDB) ∧
    CreateTransaction testDB zeroAmtReq "TXN1" none none =
      (Response.badRequest "Transaction amount must be positive", testDB) :=
  ⟨(C6_validation testDB badTypeReq "TXN1" none none).1 (by decide),
   (C6_validation testDB zeroAmtReq "TXN1" none none).2 (by decide) (by decide)⟩

lemma one_tenth_not_dyadic : ¬ isDyadic ((1 : ℚ) / 10) := by
  rintro ⟨m, e, h⟩
  have h2 : (1 : ℚ) * 2 ^ e = m * 10 := by
    rw [div_eq_div_iff (by norm_num) (by positivity)] at h
    exact h
  rw [one_mul] at h2
  have h3 : (2 : ℤ) ^ e = m * 10 := by exact_mod_cast h2
  have h5 : (5 : ℤ) ∣ 2 ^ e := ⟨m * 2, by linarith⟩
  have hp : Prime (5 : ℤ) := by norm_num
  have : (5 : ℤ) ∣ 2 := hp.dvd_of_dvd_pow h5
  norm_num at this

/-- C3: the ledger invariant — every persisted record satisfies
`balanceAfter = applyEffect balanceBefore type amount`, and every account's
stored balance (the value the next transaction on it will read) equals the
`balanceAfter` of its most recent record — is preserved by every
invocation of the handler. -/
theorem C3_ledger_invariant (db : DB) (t : Transaction) (g : String)
    (se ce : Option GormError)
    (hinv : LedgerInvariant db) :
    LedgerInvariant (CreateTransaction db t g se ce).2 := by
  rcases createTransaction_spec db t g se ce with
    ⟨hdb, -⟩ | ⟨a, txn, -, -, hfind, -, htxn, heq⟩
  · rw [hdb]
    exact hinv
  · rw [heq]
    unfold LedgerInvariant at hinv ⊢
    obtain ⟨hinv1, hinv2⟩ := hinv
    have haid : a.id = t.accountID := by
      simpa using List.find?_some hfind
    have htid : txn.accountID = t.accountID := by
      rw [htxn]
    constructor
    · intro r hr
      rcases List.mem_append.mp hr with hold | hnew
      · exact hinv1 r hold
      · have hrtxn : r = txn := by simpa using hnew
        subst hrtxn
        rw [htxn]
    · intro b hb r hr
      rcases List.mem_map.mp hb with ⟨c, hc, hfc⟩
      by_cases hcid : (c.id == a.id) = true
      · rw [if_pos hcid] at hfc
        subst hfc
        have hrec : recordsFor
            { accounts := saveAccount db.accounts
                { a with
                  balance := applyEffect a.balance t.transactionType t.amount },
              transactions := db.transactions ++ [txn] }
            (Account.id { a with
              balance := applyEffect a.balance t.transactionType t.amount }) =
            recordsFor db a.id ++ [txn] := by
          unfold recordsFor
          simp [List.filter_append, htid, haid]
        rw [hrec, List.getLast?_concat] at hr
        have hrt : r = txn := by simpa using hr.symm
        subst hrt
        rw [htxn]
      · rw [if_neg hcid] at hfc
        subst hfc
        have hcne : c.id ≠ a.id := by simpa using hcid
        have hrec : recordsFor
            { accounts := saveAccount db.accounts
                { a with
                  balance := applyEffect a.balance t.transactionType t.amount },
              transactions := db.transactions ++ [txn] } c.id =
            recordsFor db c.id := by
          unfold recordsFor
          have : (txn.accountID == c.id) = false := by
            simp [htid, ← haid]
            exact fun hx => hcne hx.symm
          simp [List.filter_append, this]
        rw [hrec] at hr
        exact hinv2 c hc r hr

/-- Witness for C3: the empty-ledger fixture satisfies the invariant, and so
does the state after a concrete deposit. -/
theorem C3_witness :
    LedgerInvariant testDB ∧
    LedgerInvariant (CreateTransaction testDB testReq "TXN1" none none).2 :=
  ⟨by simp [LedgerInvariant, testDB, recordsFor],
   C3_ledger_invariant testDB testReq "TXN1" none none
     (by simp [LedgerInvariant, testDB, recordsFor])⟩

/-- C4: for an existing active account and a debit type (withdrawal,
transfer, payment) with positive amount and no storage failure, the call
fails with the insufficient-funds rejection and leaves the store unchanged
exactly when `amount > balance`; in particular `amount = balance` succeeds
and leaves the balance at zero. -/
theorem C4_insufficient_funds (db : DB) (t : Transaction) (g : String)
    (a : Account)
    (hfind : findAccount db t.accountID = some a)
    (hactive : a.status = "active")
    (hty : t.transactionType = "withdrawal" ∨
      t.transactionType = "transfer" ∨ t.transactionType = "payment")
    (hpos : 0 < t.amount) :
    (CreateTransaction db t g none none =
        (Response.badRequest "Insufficient balance or invalid account status",
         db) ↔
      a.balance < t.amount) ∧
    (t.amount = a.balance →
      CreateTransaction db t g none none =
        (Response.created (mkRecord t g a.balance 0),
         { accounts := saveAccount db.accounts { a with balance := 0 },
           transactions := db.transactions ++ [mkRecord t g a.balance 0] })) := by
  have htype : contains validTypes t.transactionType = true := by
    rcases hty with h | h | h <;> rw [h] <;> decide
  constructor
  · constructor
    · intro hres
      by_contra hnlt
      have hge : t.amount ≤ a.balance := not_lt.mp hnlt
      have hok := @createTransaction_ok db t g a (a.balance - t.amount)
        hfind hactive htype hpos (balanceStep_debit hty hge)
      rw [hok] at hres
      simp at hres
    · intro hlt
      have herr := @createTransaction_err db t g none none .invalidData htype
        hpos (txBody_step_error hfind hactive
          (balanceStep_insufficient hty hlt))
      simpa [errResponse] using herr
  · intro heq
    have h0 : a.balance - t.amount = 0 := by rw [heq, sub_self]
    have hok := @createTransaction_ok db t g a (a.balance - t.amount)
      hfind hactive htype hpos (balanceStep_debit hty (le_of_eq heq))
    rw [h0] at hok
    exact hok

/-- Witness for C4: withdrawal of 200 from balance 100 is rejected with the
insufficient-funds error; withdrawal of 100 empties the account. -/
theorem C4_witness :
    CreateTransaction testDB (wdrawReq 200) "TXN1" none none =
      (Response.badRequest "Insufficient balance or invalid account status",
       testDB) ∧
    CreateTransaction testDB (wdrawReq 100) "TXN1" none none =
      (Response.created (mkRecord (wdrawReq 100) "TXN1" 100 0),
       { accounts := saveAccount testDB.accounts
           { testAccount with balance := 0 },
         transactions := testDB.transactions ++
           [mkRecord (wdrawReq 100) "TXN1" 100 0] }) :=
  ⟨(C4_insufficient_funds testDB (wdrawReq 200) "TXN1" testAccount (by decide)
      (by decide) (Or.inl (by decide)) (by decide)).1.mpr (by decide),
   (C4_insufficient_funds testDB (wdrawReq 100) "TXN1" testAccount (by decide)
      (by decide) (Or.inl (by decide)) (by decide)).2 (by decide)⟩

/-- C5 counterexample to distinctness: a deposit against the non-active
account 2 and an overdrawing withdrawal against the active account 1 produce
byte-for-byte the same caller-visible error (both are `gorm.ErrInvalidData`,
surfaced as 400 "Insufficient balance or invalid account status"), so the
not-active failure is not distinct from the insufficient-funds failure. -/
theorem C5_counterexample :
    (CreateTransaction testDB inactReq "TXN1" none none).1 =
      (CreateTransaction testDB (wdrawReq 200) "TXN1" none none).1 ∧
    (CreateTransaction testDB inactReq "TXN1" none none).1 =
      Response.badRequest "Insufficient balance or invalid account status" :=
  ⟨by decide, by decide⟩

/-- C5 (amended): for an existing account whose status is not `active`, any
valid type with positive amount fails with the shared precondition-rejection
error (distinct from the not-found response but identical to the
insufficient-funds one), and the store is returned unchanged: the balance is
untouched and no record is created. -/
theorem C5_inactive_rejected (db : DB) (t : Transaction) (g : String)
    (se ce : Option GormError) (a : Account)
    (hfind : findAccount db t.accountID = some a)
    (hinactive : a.status ≠ "active")
    (htype : contains validTypes t.transactionType = true)
    (hpos : 0 < t.amount) :
    CreateTransaction db t g se ce =
      (Response.badRequest "Insufficient balance or invalid account status",
       db) ∧
    ∀ msg,
      (Response.badRequest "Insufficient balance or invalid account status"
        : Response) ≠ Response.notFound msg := by
  constructor
  · have herr := @createTransaction_err db t g se ce .invalidData htype hpos
      (txBody_inactive hfind hinactive)
    simpa [errResponse] using herr
  · intro msg
    simp

/-- Witness for C5 (amended): the section-8 scenario of a deposit against the
non-active account. -/
theorem C5_witness :
    CreateTransaction testDB inactReq "TXN1" none none =
      (Response.badRequest "Insufficient balance or invalid account status",
       testDB) :=
  (C5_inactive_rejected testDB inactReq "TXN1" none none inactiveAccount
    (by decide) (by decide) (by decide) (by decide)).1

/-- C7: each invocation touches at most the one account row identified by
the request's `accountID` and appends at most one record (whose `accountID`
is that same account): either the store is unchanged, or the committed state
is exactly `saveAccount` of the target row plus one appended record, with
every other account row kept verbatim. -/
theorem C7_frame (db : DB) (t : Transaction) (g : String)
    (se ce : Option GormError) :
    ((CreateTransaction db t g se ce).2 = db) ∨
    (∃ a txn, findAccount db t.accountID = some a ∧ a.id = t.accountID ∧
      txn.accountID = t.accountID ∧
      (CreateTransaction db t g se ce).2 =
        { accounts := saveAccount db.accounts
            { a with balance := txn.balanceAfter },
          transactions := db.transactions ++ [txn] } ∧
      ∀ b ∈ db.accounts, b.id ≠ t.accountID →
        b ∈ (CreateTransaction db t g se ce).2.accounts) := by
  rcases createTransaction_spec db t g se ce with
    ⟨hdb, -⟩ | ⟨a, txn, -, -, hfind, -, htxn, heq⟩
  · exact Or.inl hdb
  · right
    have haid : a.id = t.accountID := by
      simpa using List.find?_some hfind
    have htid : txn.accountID = t.accountID := by rw [htxn]
    have hstate : (CreateTransaction db t g se ce).2 =
        { accounts := saveAccount db.accounts
            { a with balance := txn.balanceAfter },
          transactions := db.transactions ++ [txn] } := by
      subst htxn
      rw [heq]
    refine ⟨a, txn, hfind, haid, htid, hstate, ?_⟩
    intro b hb hbid
    rw [hstate]
    unfold saveAccount
    apply List.mem_map.mpr
    refine ⟨b, hb, ?_⟩
    have hbne : (b.id == a.id) = false := by
      rw [haid]
      simpa using hbid
    simp [hbne]

/-- Witness for C7: instantiation at the concrete deposit scenario. -/
theorem C7_witness :
    ((CreateTransaction testDB testReq "TXN1" none none).2 = testDB) ∨
    (∃ a txn, findAccount testDB testReq.accountID = some a ∧
      a.id = testReq.accountID ∧
      txn.accountID = testReq.accountID ∧
      (CreateTransaction testDB testReq "TXN1" none none).2 =
        { accounts := saveAccount testDB.accounts
            { a with balance := txn.balanceAfter },
          transactions := testDB.transactions ++ [txn] } ∧
      ∀ b ∈ testDB.accounts, b.id ≠ testReq.accountID →
        b ∈ (CreateTransaction testDB testReq "TXN1" none none).2.accounts) :=
  C7_frame testDB testReq "TXN1" none none

/-- C9 (refuting exact-decimal representation): the exact value of the
section-4 deposit effect at the decimal amount 0.10 — computed here in exact
rational arithmetic — is not a dyadic rational, while every finite value of
the `float64` type the code stores balances and amounts in is dyadic; hence
the code's binary floating-point arithmetic cannot represent this result
exactly, contradicting exact decimal minor-unit arithmetic. -/
theorem C9_float_representation :
    ∃ txn db2,
      CreateTransaction testDB centReq "TXN1" none none =
        (Response.created txn, db2) ∧
      ¬ isDyadic txn.balanceAfter := by
  refine ⟨mkRecord centReq "TXN1" 0 (1 / 10),
    { accounts := [testAccount, inactiveAccount,
        { zeroAccount with balance := 1 / 10 }],
      transactions := [mkRecord centReq "TXN1" 0 (1 / 10)] },
    by decide, ?_⟩
  exact one_tenth_not_dyadic

/-- C10: the computed record never depends on the client-supplied
`transaction_id`, `balance_before` or `balance_after` request fields — two
requests differing only there produce identical responses and identical
committed states — and on success the persisted identifier is the
system-generated one. -/
theorem C10_client_fields_ignored (db : DB) (t : Transaction) (g : String)
    (se ce : Option GormError) (cid : String) (cb ca : ℚ) :
    CreateTransaction db
        { t with transactionID := cid, balanceBefore := cb,
                 balanceAfter := ca } g se ce =
      CreateTransaction db t g se ce ∧
    ∀ txn db2,
      CreateTransaction db t g se ce = (Response.created txn, db2) →
      txn.transactionID = g := by
  constructor
  · rfl
  · intro txn db2 hres
    rcases createTransaction_spec db t g se ce with
      ⟨-, hne⟩ | ⟨a, txn2, -, -, -, -, htxn2, heq⟩
    · have h1 : (CreateTransaction db t g se ce).1 = Response.created txn := by
        rw [hres]
      exact absurd h1 (hne txn)
    · rw [heq] at hres
      have h2 : txn2 = txn := by
        have := congrArg Prod.fst hres
        simpa using this
      rw [← h2, htxn2]

/-- Witness for C10: a request carrying a client-chosen transaction id and
balance snapshots yields the same outcome as the clean request, and the
persisted identifier is the generated "TXN1". -/
theorem C10_witness :
    CreateTransaction testDB
        { testReq with transactionID := "CLIENT", balanceBefore := 7,
                       balanceAfter := 9 } "TXN1" none none =
      CreateTransaction testDB testReq "TXN1" none none ∧
    (mkRecord testReq "TXN1" 100 150).transactionID = "TXN1" :=
  ⟨(C10_client_fields_ignored testDB testReq "TXN1" none none
      "CLIENT" 7 9).1,
   (C10_client_fields_ignored testDB testReq "TXN1" none none
      "CLIENT" 7 9).2
     (mkRecord testReq "TXN1" 100 150)
     { accounts := [{ testAccount with balance := 150 },
                    inactiveAccount, zeroAccount],
       transactions := [mkRecord testReq "TXN1" 100 150] }
     (by decide)⟩

end Banking
